import Mathlib

/-!
Shallow embedding of the policy-document module of the wakanda-mandate
backend (src/backend/app/policy): the data model (models.py, schemas.py)
and the router operations (routers.py), together with proofs of the
behavioural properties claimed for them.

Modelling conventions:
* timestamps (`datetime` values) are natural numbers counting seconds;
  the calendar day of a timestamp is `t / 86400` (`func.date` truncation);
* SQL `ILIKE "%q%"` is modelled by a full LIKE-pattern matcher over
  lower-cased character lists (`%` and `_` wildcards included);
* the database session is a `DBState` record of entity lists in insertion
  order; `query(...).first()` is `List.find?`, in-place mutation of the
  row returned by `.first()` is `updateFirst`;
* `HTTPException(status_code, detail)` is an `Err` value and each router
  function returns `Except Err (result × DBState)`;
* Python float arithmetic on the exact decimal constants involved here is
  modelled with `ℚ`.
-/

namespace WakandaPolicy

/-- Seconds in a calendar day. -/
def secondsPerDay : Nat := 86400

/-- `func.date` on a datetime: the calendar day of a timestamp. -/
def toDate (t : Nat) : Nat := t / secondsPerDay

/-- `anyTail k s` holds when `k` accepts some suffix of `s` (the string
fragments a leading `%` wildcard can leave for the rest of the pattern). -/
def anyTail (k : List Char → Bool) : List Char → Bool
  | [] => k []
  | c :: s => k (c :: s) || anyTail k s

/-- SQL LIKE pattern matching over character lists: `%` matches any
(possibly empty) sequence, `_` matches exactly one character, any other
pattern character matches itself. -/
def likeMatch : List Char → List Char → Bool
  | [], s => s.isEmpty
  | p :: ps, s =>
    if p = '%' then
      anyTail (likeMatch ps) s
    else
      match s with
      | [] => false
      | c :: s' => (p == '_' || p == c) && likeMatch ps s'

/-- Character-wise lower-casing (the `List Char` view of
`String.toLower`). -/
def toLowerList (l : List Char) : List Char := l.map Char.toLower

/-- `column.ilike(f"%{query}%")`: case-insensitive LIKE with the query
wrapped in `%` wildcards. -/
def ilikeContains (field query : String) : Bool :=
  likeMatch ('%' :: (toLowerList query.data ++ ['%'])) (toLowerList field.data)

/-- `ilike` on a nullable column: SQL NULL never matches. -/
def ilikeContainsOpt (field : Option String) (query : String) : Bool :=
  match field with
  | none => false
  | some f => ilikeContains f query

/-- The caller principal supplied by the auth dependency (users.models.User,
restricted to the fields the policy routers read). -/
structure User where
  id : Nat
  role : String
deriving Repr, DecidableEq

/-- models.PolicyDocument (rows of table policy_documents). -/
structure PolicyDocument where
  id : Nat
  title : String
  document_number : String
  document_type : String
  category : String
  department : String
  summary : String
  content : String
  keywords : Option String
  effective_date : Nat
  expiry_date : Option Nat
  status : String
  version : String
  language : String
  file_url : Option String
  created_by : Nat
  reviewed_by : Option Nat
  is_public : Bool
  view_count : Nat
deriving Repr, DecidableEq

/-- models.PolicyAnalytics (rows of table policy_analytics): one counter
row per document and calendar day, keyed in the code by
`policy_document_id` together with `func.date(analytics_date)`. -/
structure PolicyAnalytics where
  id : Nat
  policy_document_id : Nat
  analytics_date : Nat
  views : Nat
  downloads : Nat
  comments_count : Nat
  citations_count : Nat
  search_appearances : Nat
deriving Repr, DecidableEq

/-- models.PolicyComment (rows of table policy_comments). -/
structure PolicyComment where
  id : Nat
  policy_document_id : Nat
  comment_text : String
  comment_type : String
  is_public : Bool
  commenter_id : Nat
  response : Option String
  responded_by : Option Nat
deriving Repr, DecidableEq

/-- schemas.PolicyDocumentCreate: the create payload. -/
structure PolicyDocumentCreate where
  title : String
  document_number : String
  document_type : String
  category : String
  department : String
  summary : String
  content : String
  keywords : Option String
  effective_date : Nat
  expiry_date : Option Nat
  version : String
  language : String
  file_url : Option String
  is_public : Bool
deriving Repr, DecidableEq

/-- schemas.PolicyDocumentUpdate: the partial-update payload. A field set
to `none` was not supplied (pydantic `exclude_unset`); a supplied value of
a nullable column is itself an `Option`. Note the schema exposes no
view_count, created_by, document_number, effective_date, document_type,
category, department, version or language field. -/
structure PolicyDocumentUpdate where
  title : Option String
  summary : Option String
  content : Option String
  keywords : Option (Option String)
  expiry_date : Option (Option Nat)
  status : Option String
  file_url : Option (Option String)
  is_public : Option Bool
deriving Repr, DecidableEq

/-- schemas.PolicyCommentCreate minus the path-supplied document id. -/
structure PolicyCommentCreate where
  comment_text : String
  comment_type : String
  is_public : Bool
deriving Repr, DecidableEq

/-- schemas.PolicySearchResult. relevance_score is one of the exact
constants 1.0, 0.7, 0.5, modelled in `ℚ`. -/
structure PolicySearchResult where
  id : Nat
  title : String
  document_number : String
  document_type : String
  category : String
  department : String
  summary : String
  effective_date : Nat
  status : String
  relevance_score : ℚ
deriving Repr, DecidableEq

/-- schemas.PolicyAnalyticsReport. -/
structure PolicyAnalyticsReport where
  policy_id : Nat
  policy_title : String
  period_start : Nat
  period_end : Nat
  total_views : Nat
  total_downloads : Nat
  total_comments : Nat
  total_citations : Nat
  search_appearances : Nat
  engagement_score : ℚ
  trending_keywords : List String
deriving Repr, DecidableEq

/-- An HTTPException: status code and detail message. -/
structure Err where
  status_code : Nat
  detail : String
deriving Repr, DecidableEq

/-- The database session state: entity lists in insertion order plus the
autoincrement counters for the primary keys the embedded operations
allocate. -/
structure DBState where
  documents : List PolicyDocument
  analytics : List PolicyAnalytics
  comments : List PolicyComment
  nextDocumentId : Nat
  nextAnalyticsId : Nat
  nextCommentId : Nat
deriving Repr, DecidableEq

/-- Update the first element satisfying `p` (the row returned by
`.first()`, mutated in place). -/
def updateFirst (p : α → Bool) (f : α → α) : List α → List α
  | [] => []
  | a :: as => if p a then f a :: as else a :: updateFirst p f as

/-- `db.query(PolicyDocument).filter(PolicyDocument.id == did).first()`. -/
def findDoc (docs : List PolicyDocument) (did : Nat) : Option PolicyDocument :=
  docs.find? (fun d => d.id == did)

/-- HTTP 403, "Not enough permissions" (role gate on create/update/stats/analytics). -/
def forbiddenError : Err := { status_code := 403, detail := "Not enough permissions" }

/-- HTTP 400 raised by create when the document_number is already taken. -/
def duplicateNumberError : Err := { status_code := 400, detail := "Document number already exists" }

/-- HTTP 404 raised when no document has the requested id. -/
def documentNotFoundError : Err := { status_code := 404, detail := "Policy document not found" }

/-- HTTP 403 raised by the single-document read on a non-public document. -/
def notPublicError : Err := { status_code := 403, detail := "Document is not public" }

/-- HTTP 403 raised by update when the caller is neither admin nor the creator. -/
def forbiddenEditError : Err := { status_code := 403, detail := "Not enough permissions to edit this document" }

/-- `current_user.role in ["admin", "government_official"]`. -/
def elevatedRole (current_user : User) : Bool :=
  current_user.role == "admin" || current_user.role == "government_official"

/-- routers.create_policy_document. The stored row takes the payload fields,
`created_by` from the caller, and the column defaults status = "active",
`reviewed_by` NULL, view_count 0. -/
def create_policy_document (s : DBState) (current_user : User)
    (document : PolicyDocumentCreate) : Except Err (PolicyDocument × DBState) :=
  if !elevatedRole current_user then
    .error forbiddenError
  else if s.documents.any (fun d => d.document_number == document.document_number) then
    .error duplicateNumberError
  else
    let db_document : PolicyDocument :=
      { id := s.nextDocumentId
        title := document.title
        document_number := document.document_number
        document_type := document.document_type
        category := document.category
        department := document.department
        summary := document.summary
        content := document.content
        keywords := document.keywords
        effective_date := document.effective_date
        expiry_date := document.expiry_date
        status := "active"
        version := document.version
        language := document.language
        file_url := document.file_url
        created_by := current_user.id
        reviewed_by := none
        is_public := document.is_public
        view_count := 0 }
    .ok (db_document,
      { s with documents := s.documents ++ [db_document],
               nextDocumentId := s.nextDocumentId + 1 })

/-- One optional equality filter as the routers apply it: Python truthiness
means `none` and the empty string both leave the query unfiltered. -/
def pyStrFilter (f : Option String) (get : PolicyDocument → String)
    (l : List PolicyDocument) : List PolicyDocument :=
  match f with
  | none => l
  | some v => if v == "" then l else l.filter (fun d => get d == v)

/-- The search base query: public documents, then the status /
document_type / category / department filters in the routers' order. -/
def searchBase (docs : List PolicyDocument)
    (document_type category department status : Option String) : List PolicyDocument :=
  pyStrFilter department (fun d => d.department)
    (pyStrFilter category (fun d => d.category)
      (pyStrFilter document_type (fun d => d.document_type)
        (pyStrFilter status (fun d => d.status)
          (docs.filter (fun d => d.is_public)))))

/-- The `or_` full-text filter across title, summary, content, keywords and
document_number. -/
def matchesFullText (query : String) (d : PolicyDocument) : Bool :=
  ilikeContains d.title query || ilikeContains d.summary query ||
  ilikeContains d.content query || ilikeContainsOpt d.keywords query ||
  ilikeContains d.document_number query

/-- `search_query` in routers.search_policy_documents. -/
def searchQuery (docs : List PolicyDocument) (query : String)
    (document_type category department status : Option String) : List PolicyDocument :=
  (searchBase docs document_type category department status).filter (matchesFullText query)

/-- `title_matches`: Tier A candidates. -/
def titleMatches (docs : List PolicyDocument) (query : String)
    (document_type category department status : Option String) : List PolicyDocument :=
  (searchQuery docs query document_type category department status).filter
    (fun d => ilikeContains d.title query)

/-- `summary_matches`: Tier B candidates (summary matches, title does not). -/
def summaryMatches (docs : List PolicyDocument) (query : String)
    (document_type category department status : Option String) : List PolicyDocument :=
  (searchQuery docs query document_type category department status).filter
    (fun d => ilikeContains d.summary query && !ilikeContains d.title query)

/-- `content_matches`: Tier C candidates (content matches, title and summary
do not). -/
def contentMatches (docs : List PolicyDocument) (query : String)
    (document_type category department status : Option String) : List PolicyDocument :=
  (searchQuery docs query document_type category department status).filter
    (fun d => ilikeContains d.content query && !ilikeContains d.title query &&
              !ilikeContains d.summary query)

/-- Build a PolicySearchResult from a document row and a relevance score. -/
def toSearchResult (score : ℚ) (d : PolicyDocument) : PolicySearchResult :=
  { id := d.id, title := d.title, document_number := d.document_number,
    document_type := d.document_type, category := d.category,
    department := d.department, summary := d.summary,
    effective_date := d.effective_date, status := d.status,
    relevance_score := score }

/-- The result list of routers.search_policy_documents: Tier A paginated
with `.offset(skip).limit(limit)`, then Tier B and Tier C each taken with
`.limit(remaining)` (no offset) while slots remain. -/
def searchResultsList (docs : List PolicyDocument) (query : String) (skip limit : Nat)
    (document_type category department status : Option String) : List PolicySearchResult :=
  let resultsA :=
    (((titleMatches docs query document_type category department status).drop skip).take limit).map
      (toSearchResult 1)
  let remaining1 := limit - resultsA.length
  let resultsB :=
    if 0 < remaining1 then
      ((summaryMatches docs query document_type category department status).take remaining1).map
        (toSearchResult ((7 : ℚ)/10))
    else []
  let remaining2 := limit - (resultsA.length + resultsB.length)
  let resultsC :=
    if 0 < remaining2 then
      ((contentMatches docs query document_type category department status).take remaining2).map
        (toSearchResult ((1 : ℚ)/2))
    else []
  resultsA ++ resultsB ++ resultsC

/-- The key of the daily analytics upsert: same document, same
`func.date(analytics_date)` as the current timestamp. -/
def analyticsKey (did now : Nat) (r : PolicyAnalytics) : Bool :=
  r.policy_document_id == did && toDate r.analytics_date == toDate now

/-- A fresh analytics row with all counters zero (column defaults). -/
def emptyAnalyticsRow (aid did now : Nat) : PolicyAnalytics :=
  { id := aid, policy_document_id := did, analytics_date := now,
    views := 0, downloads := 0, comments_count := 0, citations_count := 0,
    search_appearances := 0 }

/-- The read-then-write analytics upsert used by the routers: find the row
for (document, day of `now`); increment it in place if present, otherwise
insert a fresh row with the incremented counter. Returns the new rows and
the next autoincrement id. -/
def upsertAnalyticsWith (bump : PolicyAnalytics → PolicyAnalytics)
    (rows : List PolicyAnalytics) (nextId did now : Nat) :
    List PolicyAnalytics × Nat :=
  if rows.any (analyticsKey did now) then
    (updateFirst (analyticsKey did now) bump rows, nextId)
  else
    (rows ++ [bump (emptyAnalyticsRow nextId did now)], nextId + 1)

/-- `analytics.views += 1` / `PolicyAnalytics(..., views=1)`. -/
def bumpViews (a : PolicyAnalytics) : PolicyAnalytics :=
  { a with views := a.views + 1 }

/-- `analytics.search_appearances += 1` / `PolicyAnalytics(..., search_appearances=1)`. -/
def bumpSearchAppearances (a : PolicyAnalytics) : PolicyAnalytics :=
  { a with search_appearances := a.search_appearances + 1 }

/-- `analytics.comments_count += 1` / `PolicyAnalytics(..., comments_count=1)`. -/
def bumpComments (a : PolicyAnalytics) : PolicyAnalytics :=
  { a with comments_count := a.comments_count + 1 }

/-- routers.search_policy_documents: computes the ranked result list, then
upserts one search_appearances increment per returned result. -/
def search_policy_documents (s : DBState) (query : String) (skip limit : Nat)
    (document_type category department status : Option String) (now : Nat) :
    List PolicySearchResult × DBState :=
  let results := searchResultsList s.documents query skip limit
    document_type category department status
  let upd := results.foldl
    (fun (p : List PolicyAnalytics × Nat) r =>
      upsertAnalyticsWith bumpSearchAppearances p.1 p.2 r.id now)
    (s.analytics, s.nextAnalyticsId)
  (results, { s with analytics := upd.1, nextAnalyticsId := upd.2 })

/-- routers.get_policy_document: 404 if absent, 403 if not public;
otherwise increment view_count and upsert a views increment for today.
Note the route declares no current_user dependency. -/
def get_policy_document (s : DBState) (document_id now : Nat) :
    Except Err (PolicyDocument × DBState) :=
  match findDoc s.documents document_id with
  | none => .error documentNotFoundError
  | some document =>
    if !document.is_public then
      .error notPublicError
    else
      let docs := updateFirst (fun d => d.id == document_id)
        (fun d => { d with view_count := d.view_count + 1 }) s.documents
      let upd := upsertAnalyticsWith bumpViews s.analytics s.nextAnalyticsId document_id now
      .ok ({ document with view_count := document.view_count + 1 },
           { s with documents := docs, analytics := upd.1, nextAnalyticsId := upd.2 })

/-- The document-read route as invoked by some caller: since the route
declares no current_user dependency, the caller identity is ignored
entirely. -/
def get_policy_document_as (_caller : User) (s : DBState) (document_id now : Nat) :
    Except Err (PolicyDocument × DBState) :=
  get_policy_document s document_id now

/-- `for field, value in document_update.dict(exclude_unset=True): setattr`:
supplied fields overwrite, unsupplied fields keep their value. Fields not
in the update schema (id, document_number, view_count, created_by, ...)
are untouched. -/
def applyUpdate (document : PolicyDocument) (u : PolicyDocumentUpdate) : PolicyDocument :=
  { document with
    title := u.title.getD document.title
    summary := u.summary.getD document.summary
    content := u.content.getD document.content
    keywords := u.keywords.getD document.keywords
    expiry_date := u.expiry_date.getD document.expiry_date
    status := u.status.getD document.status
    file_url := u.file_url.getD document.file_url
    is_public := u.is_public.getD document.is_public }

/-- routers.update_policy_document: role gate first, then 404 lookup, then
the creator-or-admin ownership check, then the partial update. -/
def update_policy_document (s : DBState) (document_id : Nat) (current_user : User)
    (document_update : PolicyDocumentUpdate) : Except Err (PolicyDocument × DBState) :=
  if !elevatedRole current_user then
    .error forbiddenError
  else
    match findDoc s.documents document_id with
    | none => .error documentNotFoundError
    | some document =>
      if current_user.role != "admin" && document.created_by != current_user.id then
        .error forbiddenEditError
      else
        let docs := updateFirst (fun d => d.id == document_id)
          (fun d => applyUpdate d document_update) s.documents
        .ok (applyUpdate document document_update, { s with documents := docs })

/-- routers.add_policy_comment: 404 lookup, insert the comment, upsert a
comments_count increment for today. -/
def add_policy_comment (s : DBState) (document_id : Nat) (current_user : User)
    (comment : PolicyCommentCreate) (now : Nat) : Except Err (PolicyComment × DBState) :=
  match findDoc s.documents document_id with
  | none => .error documentNotFoundError
  | some _ =>
    let db_comment : PolicyComment :=
      { id := s.nextCommentId, policy_document_id := document_id,
        comment_text := comment.comment_text, comment_type := comment.comment_type,
        is_public := comment.is_public, commenter_id := current_user.id,
        response := none, responded_by := none }
    let upd := upsertAnalyticsWith bumpComments s.analytics s.nextAnalyticsId document_id now
    .ok (db_comment,
      { s with comments := s.comments ++ [db_comment], analytics := upd.1,
               nextAnalyticsId := upd.2, nextCommentId := s.nextCommentId + 1 })

/-- `days_in_period = (end_date - start_date).days or 1`: the floor of the
signed duration in days, replaced by 1 only when it is exactly 0
(Python truthiness, not a clamp). -/
def daysInPeriod (start_date end_date : Nat) : Int :=
  let d : Int := Int.fdiv ((end_date : Int) - (start_date : Int)) (secondsPerDay : Int)
  if d = 0 then 1 else d

/-- The rows the analytics report sums: same document and raw
`analytics_date` timestamp within [start_date, end_date]. -/
def analyticsInRange (rows : List PolicyAnalytics) (did start_date end_date : Nat) :
    List PolicyAnalytics :=
  rows.filter (fun r => r.policy_document_id == did &&
    decide (start_date ≤ r.analytics_date) && decide (r.analytics_date ≤ end_date))

/-- `document.keywords.split(',')[:5]` when keywords is truthy, else []. -/
def trendingKeywords (keywords : Option String) : List String :=
  match keywords with
  | none => []
  | some k => if k == "" then [] else (k.splitOn ",").take 5

/-- routers.get_policy_analytics: role gate, 404 lookup, sum the counters
of the rows in range, engagement score, trending keywords. -/
def get_policy_analytics (s : DBState) (current_user : User)
    (document_id start_date end_date : Nat) : Except Err PolicyAnalyticsReport :=
  if !elevatedRole current_user then
    .error forbiddenError
  else
    match findDoc s.documents document_id with
    | none => .error documentNotFoundError
    | some document =>
      let analytics_data := analyticsInRange s.analytics document_id start_date end_date
      let total_views := (analytics_data.map (fun r => r.views)).sum
      let total_downloads := (analytics_data.map (fun r => r.downloads)).sum
      let total_comments := (analytics_data.map (fun r => r.comments_count)).sum
      let total_citations := (analytics_data.map (fun r => r.citations_count)).sum
      let search_appearances := (analytics_data.map (fun r => r.search_appearances)).sum
      .ok { policy_id := document_id
            policy_title := document.title
            period_start := start_date
            period_end := end_date
            total_views := total_views
            total_downloads := total_downloads
            total_comments := total_comments
            total_citations := total_citations
            search_appearances := search_appearances
            engagement_score :=
              ((total_views : ℚ) + (total_comments : ℚ) * 5 + (total_citations : ℚ) * 10) /
                ((daysInPeriod start_date end_date : ℤ) : ℚ)
            trending_keywords := trendingKeywords document.keywords }

/-- One request against the policy module, with every input it reads
(the current timestamp included for the operations that record analytics). -/
inductive PolicyOp where
  | createDocument (current_user : User) (document : PolicyDocumentCreate)
  | searchDocuments (query : String) (skip limit : Nat)
      (document_type category department status : Option String) (now : Nat)
  | listDocuments (skip limit : Nat)
      (document_type category department status : Option String) (is_public : Option Bool)
  | getDocument (document_id now : Nat)
  | updateDocument (document_id : Nat) (current_user : User)
      (document_update : PolicyDocumentUpdate)
  | addComment (document_id : Nat) (current_user : User)
      (comment : PolicyCommentCreate) (now : Nat)
  | getComments (document_id skip limit : Nat)
  | getStats (current_user : User)
  | getAnalytics (document_id : Nat) (current_user : User) (start_date end_date : Nat)
  | getRecommendations (category : Option String) (limit : Nat) (current_user : User)

/-- The state transition of each request: a raised HTTPException aborts the
handler before any mutation is committed, so error outcomes leave the
state unchanged; the listing/stats/report/recommendation handlers only
query. -/
def applyOp (s : DBState) : PolicyOp → DBState
  | .createDocument u doc =>
    match create_policy_document s u doc with
    | .ok p => p.2
    | .error _ => s
  | .searchDocuments q skip limit dt c dep st now =>
    (search_policy_documents s q skip limit dt c dep st now).2
  | .listDocuments _ _ _ _ _ _ _ => s
  | .getDocument did now =>
    match get_policy_document s did now with
    | .ok p => p.2
    | .error _ => s
  | .updateDocument did u upd =>
    match update_policy_document s did u upd with
    | .ok p => p.2
    | .error _ => s
  | .addComment did u c now =>
    match add_policy_comment s did u c now with
    | .ok p => p.2
    | .error _ => s
  | .getComments _ _ _ => s
  | .getStats _ => s
  | .getAnalytics _ _ _ _ => s
  | .getRecommendations _ _ _ => s

/-! ## Derived observations used by the theorems -/

/-- view_count of the row `.first()` returns for a given id. -/
def viewCountOf (docs : List PolicyDocument) (i : Nat) : Option Nat :=
  (findDoc docs i).map (fun d => d.view_count)

/-- Total of the `views` counters over the analytics rows of one document
and one calendar day. -/
def viewsOnDay (rows : List PolicyAnalytics) (did day : Nat) : Nat :=
  ((rows.filter (fun r => r.policy_document_id == did &&
      toDate r.analytics_date == day)).map (fun r => r.views)).sum

/-- Whether an operation is a successful single-document read of id `i`
in state `s` (the only action the spec allows to change view_count). -/
def readBump (s : DBState) (op : PolicyOp) (i : Nat) : Bool :=
  match op with
  | .getDocument did _ =>
    did == i && (((findDoc s.documents did).map (fun d => d.is_public)).getD false)
  | _ => false

/-- The single-document read repeated n times (its state effect). -/
def iterateRead (s : DBState) (did now : Nat) : Nat → DBState
  | 0 => s
  | n + 1 => applyOp (iterateRead s did now n) (PolicyOp.getDocument did now)

/-- The analytics row produced by n same-day reads of one document when no
row for that document existed before. -/
def viewRow (aid did now n : Nat) : PolicyAnalytics :=
  { id := aid, policy_document_id := did, analytics_date := now,
    views := n, downloads := 0, comments_count := 0, citations_count := 0,
    search_appearances := 0 }

/-- Projection of a report outcome used to state counterexamples. -/
def reportTotalViews (e : Except Err PolicyAnalyticsReport) : Option Nat :=
  match e with
  | .ok r => some r.total_views
  | .error _ => none

/-- The (views, comments, citations) counters of a report outcome. -/
def reportCounters (e : Except Err PolicyAnalyticsReport) :
    Option (Nat × Nat × Nat) :=
  match e with
  | .ok r => some (r.total_views, r.total_comments, r.total_citations)
  | .error _ => none

/-- The engagement score of a report outcome. -/
def reportEngagementScore (e : Except Err PolicyAnalyticsReport) : Option ℚ :=
  match e with
  | .ok r => some r.engagement_score
  | .error _ => none

/-- The spec's notion of match: `query` occurs in `text` as a
case-insensitive substring (no wildcard interpretation). -/
def isSubstringCI (query text : String) : Bool :=
  ((toLowerList text.data).tails).any (fun t => (toLowerList query.data).isPrefixOf t)

/-- How an optional search filter relates to a field value when the filter
does not exclude the document: absent, empty (Python-falsy), or equal. -/
def filterAccepts (f : Option String) (v : String) : Bool :=
  match f with
  | none => true
  | some s => s == "" || v == s

/-! ## Concrete fixtures (used to instantiate the theorems) -/

/-- A public document whose title matches the query "water". -/
def exDoc1 : PolicyDocument :=
  { id := 1, title := "Water Conservation Act", document_number := "WCA-001",
    document_type := "law", category := "environment", department := "env",
    summary := "rules to save resources", content := "full body text",
    keywords := some "conservation,act", effective_date := 0, expiry_date := none,
    status := "active", version := "1.0", language := "en", file_url := none,
    created_by := 7, reviewed_by := none, is_public := true, view_count := 0 }

/-- A public document matching "water" only in its summary. -/
def exDoc2 : PolicyDocument :=
  { exDoc1 with
    id := 2
    title := "Energy Act"
    document_number := "EA-002"
    summary := "water usage in industry"
    content := "irrelevant" }

/-- A public document matching "water" only in its content. -/
def exDoc3 : PolicyDocument :=
  { exDoc1 with
    id := 3
    title := "Health Act"
    document_number := "HA-003"
    summary := "hospitals"
    content := "clean water supply" }

/-- A public document matching "water" only via keywords and
document_number. -/
def exDoc4 : PolicyDocument :=
  { exDoc1 with
    id := 4
    title := "Misc Act"
    document_number := "WATER-004"
    summary := "nothing here"
    content := "nothing there"
    keywords := some "water" }

/-- A private document. -/
def exDoc5 : PolicyDocument :=
  { exDoc1 with
    id := 5
    title := "Secret Water Plan"
    document_number := "SWP-005"
    is_public := false }

/-- A sample database state. -/
def exState : DBState :=
  { documents := [exDoc1, exDoc2, exDoc3, exDoc4, exDoc5], analytics := [],
    comments := [], nextDocumentId := 6, nextAnalyticsId := 1, nextCommentId := 1 }

/-- An administrator principal. -/
def exAdmin : User := { id := 1, role := "admin" }

/-- A government-official principal (not the creator of exDoc1). -/
def exOfficial : User := { id := 2, role := "government_official" }

/-- A citizen principal whose id equals exDoc1.created_by. -/
def exCitizen : User := { id := 7, role := "citizen" }

/-- exState with one analytics row for document 1 on day 0 holding
views=10, comments_count=2, citations_count=1. -/
def exAnalyticsState : DBState :=
  { exState with
    analytics :=
      [{ id := 1, policy_document_id := 1, analytics_date := 3600, views := 10,
         downloads := 0, comments_count := 2, citations_count := 1,
         search_appearances := 0 }]
    nextAnalyticsId := 2 }

/-- A create payload reusing the document_number of exDoc1. -/
def exPayload : PolicyDocumentCreate :=
  { title := "Another Water Act", document_number := "WCA-001",
    document_type := "law", category := "environment", department := "env",
    summary := "a second act", content := "other text", keywords := none,
    effective_date := 0, expiry_date := none, version := "1.0",
    language := "en", file_url := none, is_public := true }

/-- A partial update supplying only the summary. -/
def exUpdate : PolicyDocumentUpdate :=
  { title := none, summary := some "updated summary", content := none,
    keywords := none, expiry_date := none, status := none, file_url := none,
    is_public := none }

/-- The state after the single-document read endpoint runs (unchanged when
the read fails). -/
def readDocumentState (s : DBState) (document_id now : Nat) : DBState :=
  match get_policy_document s document_id now with
  | .ok p => p.2
  | .error _ => s

/-- "Only supplied fields are applied": the updated row keeps every field
the update schema does not expose, and each schema field equals the
supplied value when one was supplied and the old value otherwise. -/
def onlySuppliedFieldsChanged (d : PolicyDocument) (u : PolicyDocumentUpdate)
    (d' : PolicyDocument) : Prop :=
  d'.id = d.id ∧ d'.document_number = d.document_number ∧
  d'.document_type = d.document_type ∧ d'.category = d.category ∧
  d'.department = d.department ∧ d'.effective_date = d.effective_date ∧
  d'.version = d.version ∧ d'.language = d.language ∧
  d'.created_by = d.created_by ∧ d'.reviewed_by = d.reviewed_by ∧
  d'.view_count = d.view_count ∧
  d'.title = u.title.getD d.title ∧ d'.summary = u.summary.getD d.summary ∧
  d'.content = u.content.getD d.content ∧
  d'.keywords = u.keywords.getD d.keywords ∧
  d'.expiry_date = u.expiry_date.getD d.expiry_date ∧
  d'.status = u.status.getD d.status ∧
  d'.file_url = u.file_url.getD d.file_url ∧
  d'.is_public = u.is_public.getD d.is_public

/-- Decidable equality on request outcomes, for evaluating the embedded
operations on concrete inputs. -/
instance instDecEqExcept {ε α : Type} [DecidableEq ε] [DecidableEq α] :
    DecidableEq (Except ε α) := fun a b =>
  match a, b with
  | .ok x, .ok y =>
    if h : x = y then isTrue (by rw [h]) else isFalse (by simp [h])
  | .error x, .error y =>
    if h : x = y then isTrue (by rw [h]) else isFalse (by simp [h])
  | .ok _, .error _ => isFalse (by simp)
  | .error _, .ok _ => isFalse (by simp)

/-! ## Lemmas about updateFirst and find? -/

theorem updateFirst_of_all_neg (p : α → Bool) (f : α → α) :
    ∀ l : List α, (∀ a ∈ l, p a = false) → updateFirst p f l = l := by
  intro l h
  induction l with
  | nil => rfl
  | cons a as ih =>
    simp only [updateFirst, h a (List.mem_cons_self a as)]
    simp only [Bool.false_eq_true, if_false]
    rw [ih (fun x hx => h x (List.mem_cons_of_mem a hx))]

theorem updateFirst_append_left_neg (p : α → Bool) (f : α → α) :
    ∀ l₁ l₂ : List α, (∀ a ∈ l₁, p a = false) →
      updateFirst p f (l₁ ++ l₂) = l₁ ++ updateFirst p f l₂ := by
  intro l₁ l₂ h
  induction l₁ with
  | nil => rfl
  | cons a as ih =>
    simp only [List.cons_append, updateFirst, h a (List.mem_cons_self a as)]
    simp only [Bool.false_eq_true, if_false, List.cons.injEq, true_and]
    exact ih (fun x hx => h x (List.mem_cons_of_mem a hx))

theorem find?_updateFirst_same (p : α → Bool) (f : α → α)
    (hp : ∀ a, p (f a) = p a) :
    ∀ l : List α, (updateFirst p f l).find? p = (l.find? p).map f := by
  intro l
  induction l with
  | nil => rfl
  | cons a as ih =>
    by_cases h : p a = true
    · simp [updateFirst, h, List.find?_cons, hp a]
    · have h' : p a = false := by
        cases hpa : p a
        · rfl
        · exact absurd hpa h
      simp [updateFirst, h', List.find?_cons, ih]

theorem find?_updateFirst_disj (p q : α → Bool) (f : α → α)
    (hq : ∀ a, q (f a) = q a) :
    ∀ l : List α, (∀ a ∈ l, p a = true → q a = false) →
      (updateFirst p f l).find? q = l.find? q := by
  intro l
  induction l with
  | nil => intro _; rfl
  | cons a as ih =>
    intro hd
    by_cases h : p a = true
    · have hqa : q a = false := hd a (List.mem_cons_self a as) h
      simp [updateFirst, h, List.find?_cons, hq a, hqa]
    · have h' : p a = false := by
        cases hpa : p a
        · rfl
        · exact absurd hpa h
      by_cases hqa : q a = true
      · simp [updateFirst, h', List.find?_cons, hqa]
      · have hqa' : q a = false := by
          cases hx : q a
          · rfl
          · exact absurd hx hqa
        simp [updateFirst, h', List.find?_cons, hqa',
          ih (fun x hx hpx => hd x (List.mem_cons_of_mem a hx) hpx)]

theorem find?_append_left_of_isSome (q : α → Bool) :
    ∀ l₁ l₂ : List α, (l₁.find? q).isSome → (l₁ ++ l₂).find? q = l₁.find? q := by
  intro l₁ l₂ h
  induction l₁ with
  | nil => simp [List.find?] at h
  | cons a as ih =>
    by_cases hqa : q a = true
    · simp [List.find?_cons, hqa]
    · have h' : q a = false := by
        cases hx : q a
        · rfl
        · exact absurd hx hqa
      simp only [List.find?_cons, h'] at h ⊢
      simp only [List.cons_append, List.find?_cons, h']
      exact ih h

theorem sum_map_filter_updateFirst (p : α → Bool) (f : α → α) (g : α → Nat)
    (hpf : ∀ a, p (f a) = p a) (hg : ∀ a, p a = true → g (f a) = g a + 1) :
    ∀ l : List α, l.any p = true →
      (((updateFirst p f l).filter p).map g).sum = ((l.filter p).map g).sum + 1 := by
  intro l
  induction l with
  | nil => intro h; simp at h
  | cons a as ih =>
    intro _
    by_cases h : p a = true
    · simp only [updateFirst, h, if_true, List.filter_cons, hpf a, List.map_cons,
        List.sum_cons, hg a h]
      omega
    · have h' : p a = false := by
        cases hx : p a
        · rfl
        · exact absurd hx h
      have hany : as.any p = true := by
        cases hx : as.any p
        · simp [List.any_cons, h', hx] at *
        · rfl
      simp only [updateFirst, h', Bool.false_eq_true, if_false, List.filter_cons]
      exact ih hany

/-! ## Lemmas about the LIKE matcher -/

theorem anyTail_eq_any_tails (k : List Char → Bool) :
    ∀ s : List Char, anyTail k s = s.tails.any k := by
  intro s
  induction s with
  | nil => simp [anyTail]
  | cons c s' ih => simp [anyTail, ih]

theorem anyTail_of_mem {k : List Char → Bool} {s t : List Char}
    (hmem : t ∈ s.tails) (hk : k t = true) : anyTail k s = true := by
  rw [anyTail_eq_any_tails]
  exact List.any_eq_true.mpr ⟨t, hmem, hk⟩

theorem likeMatch_percent_cons {ps : List Char} (s : List Char) :
    likeMatch ('%' :: ps) s = anyTail (likeMatch ps) s := by
  simp [likeMatch]

theorem likeMatch_append_percent :
    ∀ (q u : List Char), q.isPrefixOf u = true → likeMatch (q ++ ['%']) u = true := by
  intro q
  induction q with
  | nil =>
    intro u _
    rw [List.nil_append, likeMatch_percent_cons]
    exact anyTail_of_mem ((List.mem_tails _ _).mpr List.nil_suffix) rfl
  | cons a q' ih =>
    intro u hpre
    cases u with
    | nil => simp [List.isPrefixOf] at hpre
    | cons b u' =>
      simp only [List.isPrefixOf, Bool.and_eq_true, beq_iff_eq] at hpre
      obtain ⟨hab, hq'⟩ := hpre
      subst hab
      by_cases hp : a = '%'
      · subst hp
        rw [List.cons_append, likeMatch_percent_cons]
        exact anyTail_of_mem ((List.mem_tails _ _).mpr (List.suffix_cons _ u')) (ih u' hq')
      · simp [likeMatch, hp, ih u' hq']

theorem likeMatch_wrap_of_substr :
    ∀ (q u : List Char), (u.tails.any fun t => q.isPrefixOf t) = true →
      likeMatch ('%' :: (q ++ ['%'])) u = true := by
  intro q u h
  obtain ⟨t, hmem, hpre⟩ := List.any_eq_true.mp h
  rw [likeMatch_percent_cons]
  exact anyTail_of_mem hmem (likeMatch_append_percent q t hpre)

/-- The spec's case-insensitive-substring notion implies the code's
`ilike "%query%"` match. -/
theorem ilikeContains_of_isSubstringCI {query text : String}
    (h : isSubstringCI query text = true) : ilikeContains text query = true := by
  exact likeMatch_wrap_of_substr (toLowerList query.data) (toLowerList text.data) h

/-! ## Search engine lemmas -/

theorem pyStrFilter_sublist (f : Option String) (get : PolicyDocument → String)
    (l : List PolicyDocument) : (pyStrFilter f get l).Sublist l := by
  cases f with
  | none => exact List.Sublist.refl l
  | some v =>
    cases hv : (v == "") with
    | true => simp [pyStrFilter, hv]
    | false =>
      simp only [pyStrFilter, hv, Bool.false_eq_true, if_false]
      exact List.filter_sublist l

theorem mem_pyStrFilter {f : Option String} {get : PolicyDocument → String}
    {d : PolicyDocument} {l : List PolicyDocument}
    (hd : d ∈ l) (hacc : filterAccepts f (get d) = true) : d ∈ pyStrFilter f get l := by
  cases f with
  | none => exact hd
  | some v =>
    cases hv : (v == "") with
    | true => simp [pyStrFilter, hv, hd]
    | false =>
      simp only [filterAccepts, hv, Bool.false_or] at hacc
      simp only [pyStrFilter, hv, Bool.false_eq_true, if_false]
      exact List.mem_filter.mpr ⟨hd, hacc⟩

theorem searchBase_sublist (docs : List PolicyDocument)
    (dt c dep st : Option String) : (searchBase docs dt c dep st).Sublist docs :=
  ((pyStrFilter_sublist _ _ _).trans
    ((pyStrFilter_sublist _ _ _).trans
      ((pyStrFilter_sublist _ _ _).trans
        ((pyStrFilter_sublist _ _ _).trans (List.filter_sublist docs)))))

theorem mem_searchBase {docs : List PolicyDocument} {dt c dep st : Option String}
    {d : PolicyDocument} (hmem : d ∈ docs) (hpub : d.is_public = true)
    (hst : filterAccepts st d.status = true)
    (hdt : filterAccepts dt d.document_type = true)
    (hc : filterAccepts c d.category = true)
    (hdep : filterAccepts dep d.department = true) :
    d ∈ searchBase docs dt c dep st :=
  mem_pyStrFilter
    (mem_pyStrFilter
      (mem_pyStrFilter
        (mem_pyStrFilter (List.mem_filter.mpr ⟨hmem, hpub⟩) hst) hdt) hc) hdep

theorem titleMatches_sublist (docs : List PolicyDocument) (query : String)
    (dt c dep st : Option String) :
    (titleMatches docs query dt c dep st).Sublist docs :=
  (List.filter_sublist _).trans ((List.filter_sublist _).trans (searchBase_sublist docs dt c dep st))

theorem summaryMatches_sublist (docs : List PolicyDocument) (query : String)
    (dt c dep st : Option String) :
    (summaryMatches docs query dt c dep st).Sublist docs :=
  (List.filter_sublist _).trans ((List.filter_sublist _).trans (searchBase_sublist docs dt c dep st))

theorem contentMatches_sublist (docs : List PolicyDocument) (query : String)
    (dt c dep st : Option String) :
    (contentMatches docs query dt c dep st).Sublist docs :=
  (List.filter_sublist _).trans ((List.filter_sublist _).trans (searchBase_sublist docs dt c dep st))

theorem mem_titleMatches {docs : List PolicyDocument} {query : String}
    {dt c dep st : Option String} {d : PolicyDocument}
    (hbase : d ∈ searchBase docs dt c dep st)
    (ht : ilikeContains d.title query = true) :
    d ∈ titleMatches docs query dt c dep st := by
  refine List.mem_filter.mpr ⟨List.mem_filter.mpr ⟨hbase, ?_⟩, ht⟩
  simp [matchesFullText, ht]

theorem of_mem_titleMatches {docs : List PolicyDocument} {query : String}
    {dt c dep st : Option String} {d : PolicyDocument}
    (h : d ∈ titleMatches docs query dt c dep st) :
    d ∈ docs ∧ ilikeContains d.title query = true :=
  ⟨(titleMatches_sublist docs query dt c dep st).subset h, (List.mem_filter.mp h).2⟩

theorem of_mem_summaryMatches {docs : List PolicyDocument} {query : String}
    {dt c dep st : Option String} {d : PolicyDocument}
    (h : d ∈ summaryMatches docs query dt c dep st) :
    d ∈ docs ∧ ilikeContains d.summary query = true ∧
      ilikeContains d.title query = false := by
  have h2 := (List.mem_filter.mp h).2
  simp only [Bool.and_eq_true, Bool.not_eq_true'] at h2
  exact ⟨(summaryMatches_sublist docs query dt c dep st).subset h, h2.1, h2.2⟩

theorem of_mem_contentMatches {docs : List PolicyDocument} {query : String}
    {dt c dep st : Option String} {d : PolicyDocument}
    (h : d ∈ contentMatches docs query dt c dep st) :
    d ∈ docs ∧ ilikeContains d.content query = true ∧
      ilikeContains d.title query = false ∧
      ilikeContains d.summary query = false := by
  have h2 := (List.mem_filter.mp h).2
  simp only [Bool.and_eq_true, Bool.not_eq_true'] at h2
  exact ⟨(contentMatches_sublist docs query dt c dep st).subset h, h2.1.1, h2.1.2, h2.2⟩

theorem if_pos_take_map (f : PolicyDocument → PolicySearchResult)
    (l : List PolicyDocument) (r : Nat) :
    (if 0 < r then (l.take r).map f else []) = (l.take r).map f := by
  by_cases h : 0 < r
  · simp [h]
  · have hz : r = 0 := by omega
    subst hz
    simp

/-- Structure of the search result list: Tier A paginated by
(offset, limit); Tiers B and C are prefixes filling the remaining slots. -/
theorem searchResultsList_eq (docs : List PolicyDocument) (query : String)
    (skip limit : Nat) (dt c dep st : Option String) :
    ∃ pageA fillB fillC,
      pageA = ((titleMatches docs query dt c dep st).drop skip).take limit ∧
      fillB = (summaryMatches docs query dt c dep st).take (limit - pageA.length) ∧
      fillC = (contentMatches docs query dt c dep st).take
        (limit - (pageA.length + fillB.length)) ∧
      searchResultsList docs query skip limit dt c dep st =
        pageA.map (toSearchResult 1) ++ fillB.map (toSearchResult ((7 : ℚ)/10)) ++
        fillC.map (toSearchResult ((1 : ℚ)/2)) := by
  refine ⟨_, _, _, rfl, rfl, rfl, ?_⟩
  simp only [searchResultsList, if_pos_take_map, List.length_map]

/-- **C4** (search pagination): the offset is applied only to the Tier A
(title-match) query; the result list takes up to `limit` Tier A matches
after that offset, then fills the remaining `limit - count(A)` slots with
a prefix of the Tier B matches (no offset), then any still-remaining
slots with a prefix of the Tier C matches (no offset); the final list
never exceeds `limit` entries. -/
theorem search_pagination_design (docs : List PolicyDocument) (query : String)
    (skip limit : Nat) (dt c dep st : Option String) :
    ∃ pageA fillB fillC,
      pageA = ((titleMatches docs query dt c dep st).drop skip).take limit ∧
      fillB = (summaryMatches docs query dt c dep st).take (limit - pageA.length) ∧
      fillC = (contentMatches docs query dt c dep st).take
        (limit - (pageA.length + fillB.length)) ∧
      searchResultsList docs query skip limit dt c dep st =
        pageA.map (toSearchResult 1) ++ fillB.map (toSearchResult ((7 : ℚ)/10)) ++
        fillC.map (toSearchResult ((1 : ℚ)/2)) ∧
      (searchResultsList docs query skip limit dt c dep st).length ≤ limit := by
  obtain ⟨pageA, fillB, fillC, hA, hB, hC, heq⟩ :=
    searchResultsList_eq docs query skip limit dt c dep st
  refine ⟨pageA, fillB, fillC, hA, hB, hC, heq, ?_⟩
  have hlenA : pageA.length ≤ limit := by
    rw [hA, List.length_take]
    exact min_le_left _ _
  have hlenB : fillB.length ≤ limit - pageA.length := by
    rw [hB, List.length_take]
    exact min_le_left _ _
  have hlenC : fillC.length ≤ limit - (pageA.length + fillB.length) := by
    rw [hC, List.length_take]
    exact min_le_left _ _
  rw [heq]
  simp only [List.length_append, List.length_map]
  omega

/-- **C3** (title match lands in Tier A): a public document whose title
contains the query as a case-insensitive substring, and which every
supplied equality filter accepts, is returned by the search with offset 0
and sufficient limit as a Tier A result with relevance_score 1.0. -/
theorem title_substring_in_tier_a (docs : List PolicyDocument) (query : String)
    (limit : Nat) (dt c dep st : Option String) (d : PolicyDocument)
    (hmem : d ∈ docs) (hpub : d.is_public = true)
    (hdt : filterAccepts dt d.document_type = true)
    (hc : filterAccepts c d.category = true)
    (hdep : filterAccepts dep d.department = true)
    (hst : filterAccepts st d.status = true)
    (htitle : isSubstringCI query d.title = true)
    (hlim : (titleMatches docs query dt c dep st).length ≤ limit) :
    toSearchResult 1 d ∈ searchResultsList docs query 0 limit dt c dep st ∧
      (toSearchResult 1 d).id = d.id ∧ (toSearchResult 1 d).relevance_score = 1 := by
  have hil : ilikeContains d.title query = true :=
    ilikeContains_of_isSubstringCI htitle
  have htm : d ∈ titleMatches docs query dt c dep st :=
    mem_titleMatches (mem_searchBase hmem hpub hst hdt hc hdep) hil
  obtain ⟨pageA, fillB, fillC, hA, hB, hC, heq⟩ :=
    searchResultsList_eq docs query 0 limit dt c dep st
  have hpage : pageA = titleMatches docs query dt c dep st := by
    rw [hA, List.drop_zero, List.take_of_length_le hlim]
  refine ⟨?_, rfl, rfl⟩
  rw [heq]
  refine List.mem_append.mpr (Or.inl (List.mem_append.mpr (Or.inl ?_)))
  rw [hpage]
  exact List.mem_map_of_mem (toSearchResult 1) htm

/-- Witness for C3: in the sample corpus, "Water Conservation Act" is
returned at score 1.0 for the query "water" with the default
status filter. -/
theorem title_substring_in_tier_a_witness :
    toSearchResult 1 exDoc1 ∈
      searchResultsList exState.documents "water" 0 100 none none none (some "active") ∧
      (toSearchResult 1 exDoc1).id = exDoc1.id ∧
      (toSearchResult 1 exDoc1).relevance_score = 1 :=
  title_substring_in_tier_a exState.documents "water" 100 none none none
    (some "active") exDoc1 (by decide) (by decide) (by decide) (by decide)
    (by decide) (by decide) (by decide) (by decide)

/-- Every search result comes from exactly one of the three tier queries,
with the tier's score. -/
theorem mem_searchResults_cases {docs : List PolicyDocument} {query : String}
    {skip limit : Nat} {dt c dep st : Option String} {r : PolicySearchResult}
    (h : r ∈ searchResultsList docs query skip limit dt c dep st) :
    (∃ d ∈ titleMatches docs query dt c dep st, r = toSearchResult 1 d) ∨
    (∃ d ∈ summaryMatches docs query dt c dep st, r = toSearchResult ((7 : ℚ)/10) d) ∨
    (∃ d ∈ contentMatches docs query dt c dep st, r = toSearchResult ((1 : ℚ)/2) d) := by
  obtain ⟨pageA, fillB, fillC, hA, hB, hC, heq⟩ :=
    searchResultsList_eq docs query skip limit dt c dep st
  rw [heq] at h
  rcases List.mem_append.mp h with h' | hcc
  · rcases List.mem_append.mp h' with ha | hb
    · obtain ⟨d, hd, hr⟩ := List.mem_map.mp ha
      rw [hA] at hd
      exact Or.inl ⟨d, List.mem_of_mem_drop (List.mem_of_mem_take hd), hr.symm⟩
    · obtain ⟨d, hd, hr⟩ := List.mem_map.mp hb
      rw [hB] at hd
      exact Or.inr (Or.inl ⟨d, List.mem_of_mem_take hd, hr.symm⟩)
  · obtain ⟨d, hd, hr⟩ := List.mem_map.mp hcc
    rw [hC] at hd
    exact Or.inr (Or.inr ⟨d, List.mem_of_mem_take hd, hr.symm⟩)

theorem id_comp_toSearchResult (q : ℚ) :
    ((fun r : PolicySearchResult => r.id) ∘ toSearchResult q) =
      (fun d : PolicyDocument => d.id) := rfl

theorem disjoint_mapped_ids {docs l₁ l₂ : List PolicyDocument}
    {p₁ p₂ : PolicyDocument → Bool}
    (hids : (docs.map (fun d => d.id)).Nodup)
    (h₁ : ∀ a ∈ l₁, a ∈ docs ∧ p₁ a = true)
    (h₂ : ∀ b ∈ l₂, b ∈ docs ∧ p₂ b = true)
    (hcontra : ∀ d, p₁ d = true → p₂ d = true → False) :
    (l₁.map (fun d => d.id)).Disjoint (l₂.map (fun d => d.id)) := by
  intro i hi₁ hi₂
  obtain ⟨a, ha, hai⟩ := List.mem_map.mp hi₁
  obtain ⟨b, hb, hbi⟩ := List.mem_map.mp hi₂
  obtain ⟨hadocs, hp₁⟩ := h₁ a ha
  obtain ⟨hbdocs, hp₂⟩ := h₂ b hb
  have hab : a = b :=
    List.inj_on_of_nodup_map hids hadocs hbdocs (by rw [hai, hbi])
  exact hcontra a hp₁ (hab ▸ hp₂)

/-- **C2** (tier exclusivity): when the stored documents have distinct
ids, no document id occurs twice in one search result list; moreover a
result carries score 1.0 exactly for a title-matching document, 0.7 only
for a document whose summary matches but whose title does not, and 0.5
only for a document whose content matches but whose title and summary do
not — so a Tier A document never also appears via Tier B or C, nor a
Tier B document via Tier C. -/
theorem search_tier_exclusivity (docs : List PolicyDocument) (query : String)
    (skip limit : Nat) (dt c dep st : Option String)
    (hids : (docs.map (fun d => d.id)).Nodup) :
    ((searchResultsList docs query skip limit dt c dep st).map (fun r => r.id)).Nodup ∧
    (∀ r ∈ searchResultsList docs query skip limit dt c dep st,
      ∃ d ∈ docs, d.id = r.id ∧
        ((r.relevance_score = 1 ∧ ilikeContains d.title query = true) ∨
         (r.relevance_score = (7 : ℚ)/10 ∧ ilikeContains d.summary query = true ∧
            ilikeContains d.title query = false) ∨
         (r.relevance_score = (1 : ℚ)/2 ∧ ilikeContains d.content query = true ∧
            ilikeContains d.title query = false ∧
            ilikeContains d.summary query = false))) := by
  obtain ⟨pageA, fillB, fillC, hA, hB, hC, heq⟩ :=
    searchResultsList_eq docs query skip limit dt c dep st
  constructor
  · have hAmem : ∀ a ∈ pageA, a ∈ titleMatches docs query dt c dep st := by
      intro a ha
      rw [hA] at ha
      exact List.mem_of_mem_drop (List.mem_of_mem_take ha)
    have hBmem : ∀ a ∈ fillB, a ∈ summaryMatches docs query dt c dep st := by
      intro a ha
      rw [hB] at ha
      exact List.mem_of_mem_take ha
    have hCmem : ∀ a ∈ fillC, a ∈ contentMatches docs query dt c dep st := by
      intro a ha
      rw [hC] at ha
      exact List.mem_of_mem_take ha
    have hAprop : ∀ a ∈ pageA, a ∈ docs ∧ ilikeContains a.title query = true :=
      fun a ha => of_mem_titleMatches (hAmem a ha)
    have hBprop : ∀ a ∈ fillB, a ∈ docs ∧ (!ilikeContains a.title query) = true := by
      intro a ha
      obtain ⟨h1, _, h3⟩ := of_mem_summaryMatches (hBmem a ha)
      exact ⟨h1, by simp [h3]⟩
    have hBprop2 : ∀ a ∈ fillB, a ∈ docs ∧ ilikeContains a.summary query = true := by
      intro a ha
      obtain ⟨h1, h2, _⟩ := of_mem_summaryMatches (hBmem a ha)
      exact ⟨h1, h2⟩
    have hCprop : ∀ a ∈ fillC, a ∈ docs ∧ (!ilikeContains a.title query) = true := by
      intro a ha
      obtain ⟨h1, _, h3, _⟩ := of_mem_contentMatches (hCmem a ha)
      exact ⟨h1, by simp [h3]⟩
    have hCprop2 : ∀ a ∈ fillC, a ∈ docs ∧ (!ilikeContains a.summary query) = true := by
      intro a ha
      obtain ⟨h1, _, _, h4⟩ := of_mem_contentMatches (hCmem a ha)
      exact ⟨h1, by simp [h4]⟩
    have hnA : (pageA.map (fun d => d.id)).Nodup := by
      refine hids.sublist (List.Sublist.map _ ?_)
      rw [hA]
      exact ((List.take_sublist _ _).trans (List.drop_sublist _ _)).trans
        (titleMatches_sublist docs query dt c dep st)
    have hnB : (fillB.map (fun d => d.id)).Nodup := by
      refine hids.sublist (List.Sublist.map _ ?_)
      rw [hB]
      exact (List.take_sublist _ _).trans (summaryMatches_sublist docs query dt c dep st)
    have hnC : (fillC.map (fun d => d.id)).Nodup := by
      refine hids.sublist (List.Sublist.map _ ?_)
      rw [hC]
      exact (List.take_sublist _ _).trans (contentMatches_sublist docs query dt c dep st)
    have hdAB := disjoint_mapped_ids hids hAprop hBprop
      (fun d h1 h2 => by simp [h1] at h2)
    have hdAC := disjoint_mapped_ids hids hAprop hCprop
      (fun d h1 h2 => by simp [h1] at h2)
    have hdBC := disjoint_mapped_ids hids hBprop2 hCprop2
      (fun d h1 h2 => by simp [h1] at h2)
    rw [heq, List.map_append, List.map_append, List.map_map, List.map_map,
      List.map_map, id_comp_toSearchResult, id_comp_toSearchResult,
      id_comp_toSearchResult]
    rw [List.nodup_append, List.nodup_append]
    refine ⟨⟨hnA, hnB, hdAB⟩, hnC, ?_⟩
    intro i hi
    rcases List.mem_append.mp hi with hi' | hi'
    · exact hdAC hi'
    · exact hdBC hi'
  · intro r hr
    rcases mem_searchResults_cases hr with ⟨d, hd, hrd⟩ | ⟨d, hd, hrd⟩ | ⟨d, hd, hrd⟩
    · obtain ⟨hdocs, ht⟩ := of_mem_titleMatches hd
      exact ⟨d, hdocs, by rw [hrd]; exact rfl, Or.inl ⟨by rw [hrd]; rfl, ht⟩⟩
    · obtain ⟨hdocs, hs, ht⟩ := of_mem_summaryMatches hd
      exact ⟨d, hdocs, by rw [hrd]; exact rfl, Or.inr (Or.inl ⟨by rw [hrd]; rfl, hs, ht⟩)⟩
    · obtain ⟨hdocs, hc2, ht, hs⟩ := of_mem_contentMatches hd
      exact ⟨d, hdocs, by rw [hrd]; exact rfl, Or.inr (Or.inr ⟨by rw [hrd]; rfl, hc2, ht, hs⟩)⟩

/-- Witness for C2 at the sample corpus. -/
theorem search_tier_exclusivity_witness :
    ((searchResultsList exState.documents "water" 0 100 none none none
        (some "active")).map (fun r => r.id)).Nodup ∧
    (∀ r ∈ searchResultsList exState.documents "water" 0 100 none none none
        (some "active"),
      ∃ d ∈ exState.documents, d.id = r.id ∧
        ((r.relevance_score = 1 ∧ ilikeContains d.title "water" = true) ∨
         (r.relevance_score = (7 : ℚ)/10 ∧ ilikeContains d.summary "water" = true ∧
            ilikeContains d.title "water" = false) ∨
         (r.relevance_score = (1 : ℚ)/2 ∧ ilikeContains d.content "water" = true ∧
            ilikeContains d.title "water" = false ∧
            ilikeContains d.summary "water" = false))) :=
  search_tier_exclusivity exState.documents "water" 0 100 none none none
    (some "active") (by decide)

/-- **C10** (base filter wider than the tiers): every returned result has
relevance_score 1.0, 0.7 or 0.5 and comes from a stored document matching
the query in title, summary or content; a public document matching only
in keywords or document_number is never returned. -/
theorem search_requires_title_summary_or_content (docs : List PolicyDocument)
    (query : String) (skip limit : Nat) (dt c dep st : Option String) :
    (∀ r ∈ searchResultsList docs query skip limit dt c dep st,
       (r.relevance_score = 1 ∨ r.relevance_score = (7 : ℚ)/10 ∨
          r.relevance_score = (1 : ℚ)/2) ∧
       ∃ d ∈ docs, d.id = r.id ∧
         (ilikeContains d.title query = true ∨ ilikeContains d.summary query = true ∨
          ilikeContains d.content query = true)) ∧
    ((docs.map (fun d => d.id)).Nodup →
      ∀ d ∈ docs, ilikeContains d.title query = false →
        ilikeContains d.summary query = false →
        ilikeContains d.content query = false →
        ∀ r ∈ searchResultsList docs query skip limit dt c dep st, r.id ≠ d.id) := by
  constructor
  · intro r hr
    rcases mem_searchResults_cases hr with ⟨d, hd, hrd⟩ | ⟨d, hd, hrd⟩ | ⟨d, hd, hrd⟩
    · obtain ⟨hdocs, ht⟩ := of_mem_titleMatches hd
      exact ⟨Or.inl (by rw [hrd]; rfl), d, hdocs, by rw [hrd]; exact rfl, Or.inl ht⟩
    · obtain ⟨hdocs, hs, _⟩ := of_mem_summaryMatches hd
      exact ⟨Or.inr (Or.inl (by rw [hrd]; rfl)), d, hdocs, by rw [hrd]; exact rfl,
        Or.inr (Or.inl hs)⟩
    · obtain ⟨hdocs, hc2, _, _⟩ := of_mem_contentMatches hd
      exact ⟨Or.inr (Or.inr (by rw [hrd]; rfl)), d, hdocs, by rw [hrd]; exact rfl,
        Or.inr (Or.inr hc2)⟩
  · intro hids d hd ht hs hc2 r hr hrid
    rcases mem_searchResults_cases hr with ⟨d', hd', hrd⟩ | ⟨d', hd', hrd⟩ | ⟨d', hd', hrd⟩
    · obtain ⟨hdocs, ht'⟩ := of_mem_titleMatches hd'
      have hdd : d' = d := List.inj_on_of_nodup_map hids hdocs hd
        (by rw [show d'.id = r.id by rw [hrd]; exact rfl, hrid])
      rw [hdd, ht] at ht'
      cases ht'
    · obtain ⟨hdocs, hs', _⟩ := of_mem_summaryMatches hd'
      have hdd : d' = d := List.inj_on_of_nodup_map hids hdocs hd
        (by rw [show d'.id = r.id by rw [hrd]; exact rfl, hrid])
      rw [hdd, hs] at hs'
      cases hs'
    · obtain ⟨hdocs, hc', _, _⟩ := of_mem_contentMatches hd'
      have hdd : d' = d := List.inj_on_of_nodup_map hids hdocs hd
        (by rw [show d'.id = r.id by rw [hrd]; exact rfl, hrid])
      rw [hdd, hc2] at hc'
      cases hc'

/-- Witness for C10: in the sample corpus the keywords/number-only
document exDoc4 is not returned, and a returned result indeed carries one
of the three scores. -/
theorem search_requires_title_summary_or_content_witness :
    (toSearchResult 1 exDoc1).id ≠ exDoc4.id ∧
    ((toSearchResult 1 exDoc1).relevance_score = 1 ∨
      (toSearchResult 1 exDoc1).relevance_score = (7 : ℚ)/10 ∨
      (toSearchResult 1 exDoc1).relevance_score = (1 : ℚ)/2) :=
  ⟨(search_requires_title_summary_or_content exState.documents "water" 0 100
      none none none (some "active")).2 (by decide) exDoc4 (by decide) (by decide)
      (by decide) (by decide) (toSearchResult 1 exDoc1) (by decide),
   ((search_requires_title_summary_or_content exState.documents "water" 0 100
      none none none (some "active")).1 (toSearchResult 1 exDoc1) (by decide)).1⟩

/-! ## Create, update and read characterizations -/

/-- **C8** (duplicate document_number rejected): when a privileged caller
creates a document whose document_number is already stored, the create
fails with the duplicate-number error (HTTP 400), the store is unchanged,
and that error differs from the NotFound and both Forbidden errors the
module can produce. -/
theorem create_duplicate_number_conflict (s : DBState) (u : User)
    (doc : PolicyDocumentCreate)
    (hrole : elevatedRole u = true)
    (hdup : ∃ d ∈ s.documents, d.document_number = doc.document_number) :
    create_policy_document s u doc = .error duplicateNumberError ∧
    applyOp s (PolicyOp.createDocument u doc) = s ∧
    duplicateNumberError ≠ documentNotFoundError ∧
    duplicateNumberError ≠ forbiddenError ∧
    duplicateNumberError ≠ forbiddenEditError ∧
    duplicateNumberError ≠ notPublicError := by
  have hany : s.documents.any
      (fun d => d.document_number == doc.document_number) = true := by
    obtain ⟨d, hd, he⟩ := hdup
    exact List.any_eq_true.mpr ⟨d, hd, by simp [he]⟩
  have hcreate : create_policy_document s u doc = .error duplicateNumberError := by
    simp [create_policy_document, hrole, hany]
  refine ⟨hcreate, ?_, by decide, by decide, by decide, by decide⟩
  simp [applyOp, hcreate]

/-- Witness for C8: creating a second "WCA-001" in the sample state is
rejected and the state does not change. -/
theorem create_duplicate_number_conflict_witness :
    create_policy_document exState exAdmin exPayload = .error duplicateNumberError ∧
    applyOp exState (PolicyOp.createDocument exAdmin exPayload) = exState ∧
    duplicateNumberError ≠ documentNotFoundError ∧
    duplicateNumberError ≠ forbiddenError ∧
    duplicateNumberError ≠ forbiddenEditError ∧
    duplicateNumberError ≠ notPublicError :=
  create_duplicate_number_conflict exState exAdmin exPayload (by decide)
    ⟨exDoc1, by decide, by decide⟩

/-- Counterexample to C7 as stated: user 7 with role "citizen" is the
original creator of exDoc1 but update rejects them with Forbidden (the
role gate precedes the ownership check). -/
theorem update_creator_without_role_forbidden_cex :
    exCitizen.id = exDoc1.created_by ∧
    update_policy_document exState exDoc1.id exCitizen exUpdate =
      .error forbiddenError := by
  exact ⟨rfl, rfl⟩

/-- **C7** (amended): update requires the caller's role to be admin or
government_official; past that gate, an absent id gives NotFound; a
caller who is neither admin nor the creator gets Forbidden; an admin or
an elevated-role creator succeeds and only the supplied fields change. -/
theorem update_authorization (s : DBState) (did : Nat) (u : User)
    (upd : PolicyDocumentUpdate) :
    (elevatedRole u = false →
      update_policy_document s did u upd = .error forbiddenError) ∧
    (elevatedRole u = true → findDoc s.documents did = none →
      update_policy_document s did u upd = .error documentNotFoundError) ∧
    (∀ d, elevatedRole u = true → findDoc s.documents did = some d →
      u.role ≠ "admin" → d.created_by ≠ u.id →
      update_policy_document s did u upd = .error forbiddenEditError) ∧
    (∀ d, elevatedRole u = true → findDoc s.documents did = some d →
      (u.role = "admin" ∨ d.created_by = u.id) →
      ∃ s', update_policy_document s did u upd = .ok (applyUpdate d upd, s') ∧
        findDoc s'.documents did = some (applyUpdate d upd) ∧
        onlySuppliedFieldsChanged d upd (applyUpdate d upd) ∧
        (∀ j, j ≠ did → findDoc s'.documents j = findDoc s.documents j) ∧
        s'.analytics = s.analytics ∧ s'.comments = s.comments) := by
  refine ⟨?_, ?_, ?_, ?_⟩
  · intro h
    simp [update_policy_document, h]
  · intro hrole hfind
    simp [update_policy_document, hrole, hfind]
  · intro d hrole hfind hadmin hcreator
    have hcond : (u.role != "admin" && d.created_by != u.id) = true := by
      simp [bne_iff_ne, hadmin, hcreator]
    simp [update_policy_document, hrole, hfind, hcond]
  · intro d hrole hfind hok
    have hcond : (u.role != "admin" && d.created_by != u.id) = false := by
      rcases hok with h | h <;> simp [bne_iff_ne, h]
    refine ⟨{ s with documents :=
        (updateFirst (fun x => x.id == did) (fun x => applyUpdate x upd)
          s.documents) }, ?_, ?_, ?_, ?_, rfl, rfl⟩
    · simp [update_policy_document, hrole, hfind, hcond]
    · show (updateFirst (fun x => x.id == did)
        (fun x => applyUpdate x upd) s.documents).find? (fun x => x.id == did) = _
      rw [find?_updateFirst_same (fun x => x.id == did)
        (fun x => applyUpdate x upd) (fun a => rfl) s.documents]
      rw [show s.documents.find? (fun x => x.id == did) = some d from hfind]
      rfl
    · simp [onlySuppliedFieldsChanged, applyUpdate]
    · intro j hj
      show (updateFirst (fun x => x.id == did)
        (fun x => applyUpdate x upd) s.documents).find? (fun x => x.id == j) = _
      rw [find?_updateFirst_disj (fun x => x.id == did) (fun x => x.id == j)
        (fun x => applyUpdate x upd) (fun a => rfl) s.documents]
      · rfl
      · intro a _ hpa
        simp only [beq_iff_eq] at hpa ⊢
        simp [hpa, Ne.symm hj]

/-- Witness for C7 (amended): a government official who is not the
creator is rejected with the ownership Forbidden error. -/
theorem update_authorization_witness :
    update_policy_document exState 1 exOfficial exUpdate =
      .error forbiddenEditError :=
  (update_authorization exState 1 exOfficial exUpdate).2.2.1 exDoc1
    (by decide) (by decide) (by decide) (by decide)

/-- The daily view-event upsert adds exactly one view to the
(document, day) bucket. -/
theorem viewsOnDay_upsert_bumpViews (rows : List PolicyAnalytics)
    (nid did now : Nat) :
    viewsOnDay (upsertAnalyticsWith bumpViews rows nid did now).1 did (toDate now) =
      viewsOnDay rows did (toDate now) + 1 := by
  by_cases h : rows.any (analyticsKey did now) = true
  · have hkey : ∀ a, analyticsKey did now (bumpViews a) = analyticsKey did now a :=
      fun a => rfl
    have hg : ∀ a, analyticsKey did now a = true →
        (bumpViews a).views = a.views + 1 := fun a _ => rfl
    have hsum := sum_map_filter_updateFirst (analyticsKey did now) bumpViews
      (fun r => r.views) hkey hg rows h
    simp only [upsertAnalyticsWith, h, if_true]
    exact hsum
  · have h' : rows.any (analyticsKey did now) = false := by
      cases hx : rows.any (analyticsKey did now)
      · rfl
      · exact absurd hx h
    simp only [upsertAnalyticsWith, h', Bool.false_eq_true, if_false]
    show viewsOnDay (rows ++ [bumpViews (emptyAnalyticsRow nid did now)]) did
        (toDate now) = _
    unfold viewsOnDay
    rw [List.filter_append, List.map_append, List.sum_append]
    simp [bumpViews, emptyAnalyticsRow]

/-- **C6** (amended): the single-document read fails NotFound when the id
is absent; fails Forbidden whenever the document is not public — the
route declares no caller dependency, so even an administrator is
rejected; on success it returns and stores the document with view_count
incremented by exactly 1 and adds exactly one view to the
(document, current day) analytics bucket. -/
theorem read_document_characterization (s : DBState) (did now : Nat)
    (caller : User) :
    (findDoc s.documents did = none →
      get_policy_document_as caller s did now = .error documentNotFoundError) ∧
    (∀ d, findDoc s.documents did = some d → d.is_public = false →
      get_policy_document_as caller s did now = .error notPublicError) ∧
    (∀ d, findDoc s.documents did = some d → d.is_public = true →
      get_policy_document_as caller s did now =
        .ok ({ d with view_count := d.view_count + 1 },
             readDocumentState s did now) ∧
      viewCountOf (readDocumentState s did now).documents did =
        some (d.view_count + 1) ∧
      viewsOnDay (readDocumentState s did now).analytics did (toDate now) =
        viewsOnDay s.analytics did (toDate now) + 1 ∧
      (∀ j, j ≠ did →
        findDoc (readDocumentState s did now).documents j = findDoc s.documents j) ∧
      (readDocumentState s did now).comments = s.comments) := by
  refine ⟨?_, ?_, ?_⟩
  · intro h
    simp [get_policy_document_as, get_policy_document, h]
  · intro d hfind hpriv
    simp [get_policy_document_as, get_policy_document, hfind, hpriv]
  · intro d hfind hpub
    have hres : get_policy_document s did now =
        .ok ({ d with view_count := d.view_count + 1 },
          { s with
            documents := updateFirst (fun x => x.id == did)
              (fun x => { x with view_count := x.view_count + 1 }) s.documents
            analytics := (upsertAnalyticsWith bumpViews s.analytics
              s.nextAnalyticsId did now).1
            nextAnalyticsId := (upsertAnalyticsWith bumpViews s.analytics
              s.nextAnalyticsId did now).2 }) := by
      simp [get_policy_document, hfind, hpub]
    have hstate : readDocumentState s did now =
        { s with
          documents := updateFirst (fun x => x.id == did)
            (fun x => { x with view_count := x.view_count + 1 }) s.documents
          analytics := (upsertAnalyticsWith bumpViews s.analytics
            s.nextAnalyticsId did now).1
          nextAnalyticsId := (upsertAnalyticsWith bumpViews s.analytics
            s.nextAnalyticsId did now).2 } := by
      simp [readDocumentState, hres]
    refine ⟨?_, ?_, ?_, ?_, ?_⟩
    · show get_policy_document s did now = _
      rw [hstate]
      exact hres
    · rw [hstate]
      show ((updateFirst (fun x => x.id == did)
          (fun x => { x with view_count := x.view_count + 1 })
          s.documents).find? (fun x => x.id == did)).map (fun x => x.view_count) = _
      rw [find?_updateFirst_same (fun x => x.id == did)
        (fun x => { x with view_count := x.view_count + 1 }) (fun a => rfl)
        s.documents]
      rw [show s.documents.find? (fun x => x.id == did) = some d from hfind]
      rfl
    · rw [hstate]
      exact viewsOnDay_upsert_bumpViews s.analytics s.nextAnalyticsId did now
    · intro j hj
      rw [hstate]
      show (updateFirst (fun x => x.id == did)
        (fun x => { x with view_count := x.view_count + 1 })
        s.documents).find? (fun x => x.id == j) = _
      rw [find?_updateFirst_disj (fun x => x.id == did) (fun x => x.id == j)
        (fun x => { x with view_count := x.view_count + 1 }) (fun a => rfl)
        s.documents]
      · rfl
      · intro a _ hpa
        simp only [beq_iff_eq] at hpa ⊢
        simp [hpa, Ne.symm hj]
    · rw [hstate]

/-- Counterexample to C6 as stated: even an administrator cannot read the
private document exDoc5 — the read endpoint rejects every reader of a
non-public document, since it never receives a caller identity. -/
theorem read_private_document_admin_forbidden_cex :
    exDoc5.is_public = false ∧
    get_policy_document_as exAdmin exState 5 3600 = .error notPublicError := by
  exact ⟨rfl, rfl⟩

/-- Witness for C6 (amended): reading the public document exDoc1 once
succeeds, stores view_count 1 and books one view for day 0. -/
theorem read_document_characterization_witness :
    get_policy_document_as exOfficial exState 1 3600 =
      .ok ({ exDoc1 with view_count := exDoc1.view_count + 1 },
        readDocumentState exState 1 3600) ∧
    viewCountOf (readDocumentState exState 1 3600).documents 1 =
      some (exDoc1.view_count + 1) ∧
    viewsOnDay (readDocumentState exState 1 3600).analytics 1 (toDate 3600) =
      viewsOnDay exState.analytics 1 (toDate 3600) + 1 ∧
    get_policy_document_as exOfficial exState 99 0 = .error documentNotFoundError :=
  have h := (read_document_characterization exState 1 3600 exOfficial).2.2 exDoc1
    (by rfl) (by rfl)
  ⟨h.1, h.2.1, h.2.2.1,
   (read_document_characterization exState 99 0 exOfficial).1 (by rfl)⟩

/-! ## Analytics report and engagement score -/

theorem analyticsInRange_nil_of_lt (rows : List PolicyAnalytics)
    (did startT endT : Nat) (h : endT < startT) :
    analyticsInRange rows did startT endT = [] := by
  refine List.filter_eq_nil_iff.mpr ?_
  intro r _
  simp only [Bool.and_eq_true, decide_eq_true_eq]
  rintro ⟨⟨-, h1⟩, h2⟩
  omega

theorem daysInPeriod_eq_max_of_le {startT endT : Nat} (h : startT ≤ endT) :
    daysInPeriod startT endT =
      max (Int.fdiv ((endT : ℤ) - (startT : ℤ)) (secondsPerDay : ℤ)) 1 := by
  unfold daysInPeriod
  have h0 : (0 : ℤ) ≤ (endT : ℤ) - (startT : ℤ) := by omega
  have hfd : 0 ≤ Int.fdiv ((endT : ℤ) - (startT : ℤ)) (secondsPerDay : ℤ) :=
    Int.fdiv_nonneg h0 (by norm_num [secondsPerDay])
  by_cases hz : Int.fdiv ((endT : ℤ) - (startT : ℤ)) (secondsPerDay : ℤ) = 0
  · simp [hz]
  · have h1 : 1 ≤ Int.fdiv ((endT : ℤ) - (startT : ℤ)) (secondsPerDay : ℤ) := by
      omega
    simp only [hz, if_false]
    omega

/-- **C5** (amended): the report's engagement_score equals
(views + 5·comments + 10·citations) divided by the code's divisor
`(end-start).days or 1`; that divisor equals `max(days, 1)` (and is ≥ 1)
whenever start ≤ end, and the score value also equals the
`max`-normalised formula for start > end because the row range is then
empty — but the divisor expression itself is negative there, not clamped
to 1. -/
theorem engagement_score_formula (s : DBState) (u : User)
    (did startT endT : Nat) (r : PolicyAnalyticsReport)
    (h : get_policy_analytics s u did startT endT = .ok r) :
    r.engagement_score =
      ((r.total_views : ℚ) + (r.total_comments : ℚ) * 5 +
        (r.total_citations : ℚ) * 10) /
        ((daysInPeriod startT endT : ℤ) : ℚ) ∧
    r.engagement_score =
      ((r.total_views : ℚ) + (r.total_comments : ℚ) * 5 +
        (r.total_citations : ℚ) * 10) /
        ((max (Int.fdiv ((endT : ℤ) - (startT : ℤ)) (secondsPerDay : ℤ)) 1 : ℤ) : ℚ) ∧
    (startT ≤ endT → 1 ≤ daysInPeriod startT endT) := by
  simp only [get_policy_analytics] at h
  by_cases hrole : elevatedRole u = true
  · rw [hrole] at h
    simp only [Bool.not_true, Bool.false_eq_true, if_false] at h
    cases hfind : findDoc s.documents did with
    | none => rw [hfind] at h; cases h
    | some document =>
      rw [hfind] at h
      injection h with h'
      subst h'
      refine ⟨rfl, ?_, ?_⟩
      · by_cases hse : startT ≤ endT
        · simp only [daysInPeriod_eq_max_of_le hse]
        · have hlt : endT < startT := by omega
          rw [analyticsInRange_nil_of_lt s.analytics did startT endT hlt]
          simp
      · intro hse
        rw [daysInPeriod_eq_max_of_le hse]
        exact le_max_right _ _
  · have hrole' : elevatedRole u = false := by
      cases hx : elevatedRole u
      · rfl
      · exact absurd hx hrole
    rw [hrole'] at h
    simp at h

/-- Counterexample to C5 as stated: with start = 172800 (day 2) and
end = 0, the code's divisor `(end_date - start_date).days or 1` evaluates
to -2, which is less than 1 — it is not `max(days_in_period, 1)`. -/
theorem engagement_divisor_negative_cex :
    daysInPeriod 172800 0 = -2 ∧ daysInPeriod 172800 0 < 1 := by
  exact ⟨by decide, by decide⟩

/-- Witness for C5 (amended): views=10, comments=2, citations=1 over the
one-day window [0, 86400] give engagement score 30. -/
theorem engagement_score_formula_witness :
    reportEngagementScore
      (get_policy_analytics exAnalyticsState exAdmin 1 0 86400) = some 30 := by
  cases hok : get_policy_analytics exAnalyticsState exAdmin 1 0 86400 with
  | error e =>
    have hIsOk : (get_policy_analytics exAnalyticsState exAdmin 1 0 86400).isOk
        = true := by decide
    rw [hok] at hIsOk
    simp [Except.isOk, Except.toBool] at hIsOk
  | ok r =>
    have h := (engagement_score_formula exAnalyticsState exAdmin 1 0 86400 r hok).1
    have hctr : reportCounters
        (get_policy_analytics exAnalyticsState exAdmin 1 0 86400) = some (10, 2, 1) := by
      decide
    rw [hok] at hctr
    simp only [reportCounters, Option.some.injEq, Prod.mk.injEq] at hctr
    have hd : daysInPeriod 0 86400 = 1 := by decide
    simp only [reportEngagementScore, Option.some.injEq]
    rw [h, hctr.1, hctr.2.1, hctr.2.2, hd]
    norm_num

/-! ## View-count and analytics evolution under repeated reads -/

theorem viewCountOf_append_of_isSome (docs l : List PolicyDocument) (i : Nat)
    (h : (findDoc docs i).isSome = true) :
    viewCountOf (docs ++ l) i = viewCountOf docs i := by
  unfold viewCountOf findDoc
  rw [find?_append_left_of_isSome _ _ _ h]

theorem viewCountOf_updateFirst_preserve (docs : List PolicyDocument)
    (i did : Nat) (f : PolicyDocument → PolicyDocument)
    (hid : ∀ a, (f a).id = a.id) (hvc : ∀ a, (f a).view_count = a.view_count) :
    viewCountOf (updateFirst (fun x => x.id == did) f docs) i =
      viewCountOf docs i := by
  by_cases hdi : did = i
  · subst hdi
    unfold viewCountOf findDoc
    rw [find?_updateFirst_same (fun x => x.id == did) f
      (fun a => by simp [hid a]) docs]
    cases docs.find? (fun x => x.id == did) with
    | none => rfl
    | some a => simp [hvc a]
  · unfold viewCountOf findDoc
    rw [find?_updateFirst_disj (fun x => x.id == did) (fun x => x.id == i) f
      (fun a => by simp [hid a]) docs]
    intro a _ hpa
    simp only [beq_iff_eq] at hpa ⊢
    simp [hpa, hdi]

theorem viewCountOf_updateFirst_other (docs : List PolicyDocument)
    (i did : Nat) (hdi : did ≠ i) (f : PolicyDocument → PolicyDocument)
    (hid : ∀ a, (f a).id = a.id) :
    viewCountOf (updateFirst (fun x => x.id == did) f docs) i =
      viewCountOf docs i := by
  unfold viewCountOf findDoc
  rw [find?_updateFirst_disj (fun x => x.id == did) (fun x => x.id == i) f
    (fun a => by simp [hid a]) docs]
  intro a _ hpa
  simp only [beq_iff_eq] at hpa ⊢
  simp [hpa, hdi]

theorem viewCountOf_updateFirst_bump (docs : List PolicyDocument) (did : Nat) :
    viewCountOf (updateFirst (fun x => x.id == did)
        (fun x => { x with view_count := x.view_count + 1 }) docs) did =
      (viewCountOf docs did).map (fun v => v + 1) := by
  unfold viewCountOf findDoc
  rw [find?_updateFirst_same (fun x => x.id == did)
    (fun x => { x with view_count := x.view_count + 1 }) (fun a => rfl) docs]
  cases docs.find? (fun x => x.id == did) with
  | none => rfl
  | some a => rfl

/-- Under repeated successful reads, the stored row for the document keeps
all its fields and accumulates one view_count per read. -/
theorem iterateRead_find (s : DBState) (did now : Nat) (d : PolicyDocument)
    (hd : findDoc s.documents did = some d) (hpub : d.is_public = true) :
    ∀ n, findDoc (iterateRead s did now n).documents did =
      some { d with view_count := d.view_count + n } := by
  intro n
  induction n with
  | zero => exact hd
  | succ n ih =>
    have hpubn : ({ d with view_count := d.view_count + n } : PolicyDocument).is_public
        = true := hpub
    show findDoc (applyOp (iterateRead s did now n)
      (PolicyOp.getDocument did now)).documents did = _
    simp only [applyOp, get_policy_document, ih, hpubn, hpub, Bool.not_true,
      Bool.false_eq_true, if_false]
    unfold findDoc
    rw [find?_updateFirst_same (fun x : PolicyDocument => x.id == did)
      (fun x : PolicyDocument => { x with view_count := x.view_count + 1 })
      (fun a => rfl) (iterateRead s did now n).documents]
    rw [show (iterateRead s did now n).documents.find?
        (fun x : PolicyDocument => x.id == did) =
      some { d with view_count := d.view_count + n } from ih]
    rw [hpub]
    rfl

/-- Under repeated same-timestamp reads of a document with no prior
analytics rows, the analytics table gains exactly one row, carrying the
number of reads in its views counter. -/
theorem iterateRead_analytics (s : DBState) (did now : Nat) (d : PolicyDocument)
    (hd : findDoc s.documents did = some d) (hpub : d.is_public = true)
    (hfresh : ∀ r ∈ s.analytics, (r.policy_document_id == did) = false) :
    ∀ n, (iterateRead s did now n).analytics =
        (if n = 0 then s.analytics
         else s.analytics ++ [viewRow s.nextAnalyticsId did now n]) ∧
      (iterateRead s did now n).nextAnalyticsId =
        (if n = 0 then s.nextAnalyticsId else s.nextAnalyticsId + 1) := by
  have hkeyfresh : ∀ r ∈ s.analytics, analyticsKey did now r = false := by
    intro r hr
    simp only [analyticsKey, hfresh r hr, Bool.false_and]
  intro n
  induction n with
  | zero => exact ⟨rfl, rfl⟩
  | succ n ih =>
    have hfind := iterateRead_find s did now d hd hpub n
    have hpubn : ({ d with view_count := d.view_count + n } : PolicyDocument).is_public
        = true := hpub
    have hstep : iterateRead s did now (n + 1) =
        applyOp (iterateRead s did now n) (PolicyOp.getDocument did now) := rfl
    rw [hstep]
    simp only [applyOp, get_policy_document, hfind, hpubn, hpub, Bool.not_true,
      Bool.false_eq_true, if_false]
    cases n with
    | zero =>
      have hany : s.analytics.any (analyticsKey did now) = false := by
        cases hx : s.analytics.any (analyticsKey did now)
        · rfl
        · obtain ⟨r, hr, hk⟩ := List.any_eq_true.mp hx
          rw [hkeyfresh r hr] at hk
          cases hk
      rw [ih.1, ih.2]
      simp [upsertAnalyticsWith, hany, bumpViews, emptyAnalyticsRow, viewRow]
    | succ m =>
      have hm1 : ¬(m + 1 = 0) := by omega
      have hm2 : ¬(m + 1 + 1 = 0) := by omega
      simp only [ih.1, ih.2, if_neg hm1, if_neg hm2]
      have hanyrow : ((s.analytics ++
          [viewRow s.nextAnalyticsId did now (m + 1)]).any
            (analyticsKey did now)) = true := by
        refine List.any_eq_true.mpr ⟨viewRow s.nextAnalyticsId did now (m + 1),
          by simp, ?_⟩
        simp [analyticsKey, viewRow]
      simp only [upsertAnalyticsWith, hanyrow, if_true]
      rw [updateFirst_append_left_neg (analyticsKey did now) bumpViews
        s.analytics _ hkeyfresh]
      refine ⟨?_, by trivial⟩
      have : updateFirst (analyticsKey did now) bumpViews
          [viewRow s.nextAnalyticsId did now (m + 1)] =
          [viewRow s.nextAnalyticsId did now (m + 1 + 1)] := by
        simp [updateFirst, analyticsKey, viewRow, bumpViews]
      rw [this]

/-- **C9** (view_count changes only through reads): for every state and
every operation of the policy module, the view_count of an existing
document changes only when the operation is a successful single-document
read of that id, in which case it grows by exactly 1 — the update schema
has no view_count field, so updates preserve it — and consequently N
repeated reads of a public document grow its view_count by exactly N. -/
theorem view_count_only_changed_by_read :
    (∀ (s : DBState) (op : PolicyOp) (i : Nat),
      (findDoc s.documents i).isSome = true →
      viewCountOf (applyOp s op).documents i =
        (if readBump s op i = true
         then (viewCountOf s.documents i).map (fun v => v + 1)
         else viewCountOf s.documents i)) ∧
    (∀ (s : DBState) (did now n : Nat) (d : PolicyDocument),
      findDoc s.documents did = some d → d.is_public = true →
      viewCountOf (iterateRead s did now n).documents did =
        some (d.view_count + n)) := by
  constructor
  · intro s op i hsome
    cases op with
    | createDocument u doc =>
      have hb : readBump s (PolicyOp.createDocument u doc) i = false := rfl
      rw [hb]
      simp only [Bool.false_eq_true, if_false]
      simp only [applyOp, create_policy_document]
      by_cases h1 : elevatedRole u = true
      · simp only [h1, Bool.not_true, Bool.false_eq_true, if_false]
        by_cases h2 : s.documents.any
            (fun x => x.document_number == doc.document_number) = true
        · simp only [h2, if_true]
        · have h2' : s.documents.any
              (fun x => x.document_number == doc.document_number) = false := by
            cases hx : s.documents.any
              (fun x => x.document_number == doc.document_number)
            · rfl
            · exact absurd hx h2
          simp only [h2', Bool.false_eq_true, if_false]
          exact viewCountOf_append_of_isSome s.documents _ i hsome
      · have h1' : elevatedRole u = false := by
          cases hx : elevatedRole u
          · rfl
          · exact absurd hx h1
        simp only [h1', Bool.not_false, if_true]
    | searchDocuments q skip limit dt c dep st now => rfl
    | listDocuments skip limit dt c dep st pub => rfl
    | getDocument did now =>
      cases hf : findDoc s.documents did with
      | none =>
        have hb : readBump s (PolicyOp.getDocument did now) i = false := by
          simp [readBump, hf]
        rw [hb]
        simp only [Bool.false_eq_true, if_false]
        simp only [applyOp, get_policy_document, hf]
      | some doc =>
        by_cases hp : doc.is_public = true
        · have hbv : readBump s (PolicyOp.getDocument did now) i = (did == i) := by
            simp [readBump, hf, hp]
          rw [hbv]
          simp only [applyOp, get_policy_document, hf, hp, Bool.not_true,
            Bool.false_eq_true, if_false]
          by_cases hdi : did = i
          · subst hdi
            simp only [beq_self_eq_true, if_true]
            exact viewCountOf_updateFirst_bump s.documents did
          · have hne : (did == i) = false := by simp [hdi]
            rw [hne]
            simp only [Bool.false_eq_true, if_false]
            exact viewCountOf_updateFirst_other s.documents i did hdi _
              (fun a => rfl)
        · have hp' : doc.is_public = false := by
            cases hx : doc.is_public
            · rfl
            · exact absurd hx hp
          have hb : readBump s (PolicyOp.getDocument did now) i = false := by
            simp [readBump, hf, hp']
          rw [hb]
          simp only [Bool.false_eq_true, if_false]
          simp only [applyOp, get_policy_document, hf, hp', Bool.not_false, if_true]
    | updateDocument did u upd =>
      have hb : readBump s (PolicyOp.updateDocument did u upd) i = false := rfl
      rw [hb]
      simp only [Bool.false_eq_true, if_false]
      simp only [applyOp, update_policy_document]
      by_cases h1 : elevatedRole u = true
      · simp only [h1, Bool.not_true, Bool.false_eq_true, if_false]
        cases hf : findDoc s.documents did with
        | none => simp only [hf]
        | some doc =>
          simp only [hf]
          by_cases hcond : (u.role != "admin" && doc.created_by != u.id) = true
          · simp only [hcond, if_true]
          · have hcond' : (u.role != "admin" && doc.created_by != u.id) = false := by
              cases hx : (u.role != "admin" && doc.created_by != u.id)
              · rfl
              · exact absurd hx hcond
            simp only [hcond', Bool.false_eq_true, if_false]
            exact viewCountOf_updateFirst_preserve s.documents i did _
              (fun a => rfl) (fun a => rfl)
      · have h1' : elevatedRole u = false := by
          cases hx : elevatedRole u
          · rfl
          · exact absurd hx h1
        simp only [h1', Bool.not_false, if_true]
    | addComment did u c now =>
      have hb : readBump s (PolicyOp.addComment did u c now) i = false := rfl
      rw [hb]
      simp only [Bool.false_eq_true, if_false]
      simp only [applyOp, add_policy_comment]
      cases hf : findDoc s.documents did with
      | none => simp only [hf]
      | some doc => simp only [hf]
    | getComments did skip limit => rfl
    | getStats u => rfl
    | getAnalytics did u a b => rfl
    | getRecommendations cat limit u => rfl
  · intro s did now n d hd hpub
    have h := iterateRead_find s did now d hd hpub n
    unfold viewCountOf
    rw [h]
    rfl

/-- Witness for C9: updating exDoc1 leaves its view_count unchanged, and
three reads of exDoc1 set it to 3. -/
theorem view_count_only_changed_by_read_witness :
    viewCountOf (applyOp exState (PolicyOp.updateDocument 1 exAdmin exUpdate)).documents 1 =
      viewCountOf exState.documents 1 ∧
    viewCountOf (iterateRead exState 1 3600 3).documents 1 =
      some (exDoc1.view_count + 3) := by
  constructor
  · have h := view_count_only_changed_by_read.1 exState
      (PolicyOp.updateDocument 1 exAdmin exUpdate) 1 (by decide)
    simpa using h
  · exact view_count_only_changed_by_read.2 exState 1 3600 3 exDoc1 (by rfl) (by rfl)

/-- **C1** (amended): the analytics report sums the counters of the rows
whose raw `analytics_date` timestamp — not calendar day — lies within
[start, end]. Recording a view N times at one timestamp `now` on a
document with no prior analytics rows and then requesting the report over
any window containing `now` (for instance the whole of that calendar day)
yields total_views = N. -/
theorem record_views_then_report (s : DBState) (did now startT endT n : Nat)
    (u : User) (d : PolicyDocument)
    (hd : findDoc s.documents did = some d) (hpub : d.is_public = true)
    (hfresh : ∀ r ∈ s.analytics, (r.policy_document_id == did) = false)
    (hrole : elevatedRole u = true)
    (h1 : startT ≤ now) (h2 : now ≤ endT) :
    reportTotalViews
      (get_policy_analytics (iterateRead s did now n) u did startT endT) =
      some n := by
  have hempty : analyticsInRange s.analytics did startT endT = [] := by
    refine List.filter_eq_nil_iff.mpr ?_
    intro r hr
    simp [hfresh r hr]
  cases n with
  | zero =>
    have hfind := iterateRead_find s did now d hd hpub 0
    have hana0 := (iterateRead_analytics s did now d hd hpub hfresh 0).1
    rw [if_pos rfl] at hana0
    simp only [get_policy_analytics, hrole, Bool.not_true, Bool.false_eq_true,
      if_false, hfind]
    simp only [reportTotalViews, Option.some.injEq]
    rw [hana0, hempty]
    rfl
  | succ m =>
    have hfind := iterateRead_find s did now d hd hpub (m + 1)
    have hanaS := (iterateRead_analytics s did now d hd hpub hfresh (m + 1)).1
    rw [if_neg (by omega : ¬(m + 1 = 0))] at hanaS
    simp only [get_policy_analytics, hrole, Bool.not_true, Bool.false_eq_true,
      if_false, hfind]
    simp only [reportTotalViews, Option.some.injEq]
    rw [hanaS]
    unfold analyticsInRange at hempty ⊢
    rw [List.filter_append, hempty, List.nil_append]
    have hrow : (List.filter
        (fun r => r.policy_document_id == did &&
          decide (startT ≤ r.analytics_date) && decide (r.analytics_date ≤ endT))
        [viewRow s.nextAnalyticsId did now (m + 1)]) =
        [viewRow s.nextAnalyticsId did now (m + 1)] := by
      simp [viewRow, h1, h2]
    rw [hrow]
    rfl

/-- Counterexample to C1 as stated: one view is recorded on calendar day 0
(timestamp 3600), yet the report requested with start = end = the day-0
datetime (midnight, timestamp 0) returns total_views = 0 although the
row's calendar day (0) falls within [day 0, day 0]: the report compares
raw timestamps, not days. -/
theorem report_misses_same_day_row_cex :
    (get_policy_document exState 1 3600).isOk = true ∧
    toDate 3600 = toDate 0 ∧
    reportTotalViews
      (get_policy_analytics (readDocumentState exState 1 3600) exAdmin 1 0 0) =
      some 0 := by
  exact ⟨by decide, by decide, by decide⟩

/-- Witness for C1 (amended): two reads of exDoc1 at timestamp 3600 and a
report over the whole of day 0 give total_views = 2. -/
theorem record_views_then_report_witness :
    reportTotalViews
      (get_policy_analytics (iterateRead exState 1 3600 2) exAdmin 1 0 86400) =
      some 2 :=
  record_views_then_report exState 1 3600 0 86400 2 exAdmin exDoc1 (by rfl)
    (by rfl) (by decide) (by decide) (by decide) (by decide)

end WakandaPolicy
